import Mathlib

/-!
# Verification of the CVE aggregation-and-enrichment pipeline

Shallow embedding of `src/main.py` (a FastAPI service that aggregates CVE
intelligence from four upstream feeds, caches the two global-list feeds on
disk with a 4-hour freshness window, and optionally enriches the aggregate
via one of two AI backends).

Modelling conventions:
* Python/JSON dynamic values are modelled by `JsonValue` (JSON numbers are
  modelled as integers; no claim depends on fractional rendering).
* The filesystem is a finite map `String → Option FsEntry`; an entry carries
  the value `json.load` would yield (`Except String JsonValue`, the error
  case standing for an `OSError`/`JSONDecodeError` raised during the read)
  and the file's mtime in seconds.
* Network nondeterminism is made explicit: every outbound HTTP call takes an
  oracle describing its outcome (an exception carrying the Python message, or
  a status code plus decoded body).  Functions additionally return the list
  of outbound calls they issued, so "zero network calls" claims are statable.
* Python truthiness, `dict.get`, `str()` rendering and `in` are modelled by
  `pyTruthy`, `JsonValue.getD`, `pyStr` and `jsonEqStr` respectively.
-/

/-- JSON / Python dynamic value. Numbers are modelled as integers. -/
inductive JsonValue where
  | null : JsonValue
  | bool (b : Bool) : JsonValue
  | num (n : Int) : JsonValue
  | str (s : String) : JsonValue
  | arr (elems : List JsonValue) : JsonValue
  | obj (fields : List (String × JsonValue)) : JsonValue

/-- Python `d.get(key, default)`. On a non-dict Python would raise
`AttributeError`; the embedding returns the default (no modelled flow
applies `.get` to a non-dict). -/
def JsonValue.getD (v : JsonValue) (key : String) (d : JsonValue) : JsonValue :=
  match v with
  | .obj fields =>
    match fields.lookup key with
    | some x => x
    | none => d
  | _ => d

/-- Python `key in d` for a dict. -/
def JsonValue.hasKey (v : JsonValue) (key : String) : Bool :=
  match v with
  | .obj fields => (fields.lookup key).isSome
  | _ => false

/-- The element list of a JSON array (empty for non-arrays; Python would
raise on iterating a non-iterable — unreached in the modelled flows). -/
def JsonValue.elems (v : JsonValue) : List JsonValue :=
  match v with
  | .arr xs => xs
  | _ => []

/-- Python `xs[0]`. On an empty or non-list value Python raises
`IndexError`/`TypeError`; the embedding returns `null` (the modelled flows
guard this by truthiness except for the `cvssMetric*[0]` indexings, which in
the source are only reached when NVD serves a non-empty metric list). -/
def JsonValue.index0 (v : JsonValue) : JsonValue :=
  match v with
  | .arr (x :: _) => x
  | _ => .null

/-- Python dict assignment `d[key] = v` (replace in place, preserving
insertion order; append if the key is absent). -/
def JsonValue.setKey (v : JsonValue) (key : String) (newVal : JsonValue) : JsonValue :=
  match v with
  | .obj fields =>
    if (fields.lookup key).isSome then
      .obj (fields.map (fun kv => if kv.1 = key then (kv.1, newVal) else kv))
    else
      .obj (fields ++ [(key, newVal)])
  | other => other

/-- Python truthiness of a JSON value. -/
def pyTruthy (v : JsonValue) : Bool :=
  match v with
  | .null => false
  | .bool b => b
  | .num n => n != 0
  | .str s => s != ""
  | .arr xs => !xs.isEmpty
  | .obj fs => !fs.isEmpty

/-- Python truthiness of an `Optional[str]`. -/
def truthyOptStr (v : Option String) : Bool :=
  match v with
  | none => false
  | some s => s != ""

/-- Python `str()` as used inside the f-string templates.  Lists/dicts
would render via `repr`; the embedding abbreviates that case (no claim
reaches it). -/
def pyStr (v : JsonValue) : String :=
  match v with
  | .str s => s
  | .null => "None"
  | .bool true => "True"
  | .bool false => "False"
  | .num n => toString n
  | .arr _ => "[...]"
  | .obj _ => "\x7b...\x7d"

/-- Python `v == s` where `s` is a `str`: true only for an equal string. -/
def jsonEqStr (v : JsonValue) (s : String) : Bool :=
  match v with
  | .str t => t == s
  | _ => false

/-- `pat.isPrefixOf s` on character lists. -/
def charsHasPrefix : List Char → List Char → Bool
  | [], _ => true
  | _ :: _, [] => false
  | p :: ps, c :: cs => p == c && charsHasPrefix ps cs

/-- Substring occurrence on character lists. -/
def charsContains (pat : List Char) : List Char → Bool
  | [] => pat.isEmpty
  | c :: rest => charsHasPrefix pat (c :: rest) || charsContains pat rest

/-- Python `pat in s` for strings. -/
def strContains (s pat : String) : Bool :=
  charsContains pat.data s.data

/-- Exceptions that escape the modelled functions: FastAPI's
`HTTPException(status, detail)` or any other Python exception carrying its
`str()` message. -/
inductive PyExn where
  | httpException (status : Nat) (detail : String)
  | pyError (msg : String)

/-- Python `str(e)` for the exceptions above (Starlette's `HTTPException`
renders as `"<status>: <detail>"`). -/
def pyExnStr (e : PyExn) : String :=
  match e with
  | .httpException status detail => toString status ++ ": " ++ detail
  | .pyError m => m

/-- Outcome of one outbound HTTP request: a raised transport exception, or a
received response with status code and decoded JSON body. -/
inductive NetOutcome where
  | exn (msg : String)
  | resp (status : Nat) (body : JsonValue)

/-- What `json.load(open(path))` yields for a cached file, plus its mtime
(seconds).  The `error` case stands for an `OSError` or `JSONDecodeError`
raised during the read. -/
structure FsEntry where
  data : Except String JsonValue
  mtime : Int

/-- The local filesystem, keyed by path. -/
def Fs : Type := String → Option FsEntry

/-- `os.path.join(CACHE_DIR, "kev.json")` in the source. -/
def kev_cache_file : String := "cache/kev.json"

/-- `os.path.join(CACHE_DIR, "github_advisories.json")` in the source. -/
def github_cache_file : String := "cache/github_advisories.json"

/-- The CISA KEV feed URL from the source. -/
def kev_url : String :=
  "https://www.cisa.gov/sites/default/files/feeds/known_exploited_vulnerabilities.json"

/-- The GitHub advisories URL from the source. -/
def github_url : String := "https://api.github.com/advisories"

/-- `is_cache_valid` from the source: a missing file is invalid; otherwise
the file is valid iff `datetime.now() - mtime < timedelta(hours=hours)`
(strict).  Times in seconds. -/
def is_cache_valid (fs : Fs) (now : Int) (filepath : String) (hours : Int) : Bool :=
  match fs filepath with
  | none => false
  | some e => decide (now - e.mtime < hours * 3600)

/-- The cache write performed by the feed fetchers on a 200 response:
`json.dump(data, open(cache_file, "w"))`, with the file's mtime set to the
write time. -/
def cache_write (fs : Fs) (path : String) (v : JsonValue) (now : Int) : Fs :=
  fun p => if p = path then some ⟨.ok v, now⟩ else fs p

/-- Result of a cached-feed fetch: the returned value or escaped exception,
the filesystem afterwards, and the list of outbound URLs hit. -/
structure Fetched where
  result : Except PyExn JsonValue
  fs : Fs
  netCalls : List String

/-- `fetch_nvd_data` from the source: 200 yields the decoded body; any other
status raises `HTTPException(404, "CVE <id> not found")`; a transport
exception propagates. -/
def fetch_nvd_data (cve_id : String) (net : NetOutcome) : Except PyExn JsonValue :=
  match net with
  | .exn m => .error (.pyError m)
  | .resp status body =>
    if status = 200 then .ok body
    else .error (.httpException 404 ("CVE " ++ cve_id ++ " not found"))

/-- `fetch_epss_data` from the source: 200 yields the body; any other status
yields `{"data": []}`; a transport exception propagates. -/
def fetch_epss_data (_cve_id : String) (net : NetOutcome) : Except PyExn JsonValue :=
  match net with
  | .exn m => .error (.pyError m)
  | .resp status body =>
    if status = 200 then .ok body
    else .ok (.obj [("data", .arr [])])

/-- `fetch_kev_data` from the source.  If the cache file is valid it is read
and returned (a read error propagates — there is no try/except around the
read).  Otherwise the feed is fetched: 200 writes the cache and returns the
body; any other status returns `{"vulnerabilities": []}`; a transport
exception propagates. -/
def fetch_kev_data (fs : Fs) (now : Int) (net : NetOutcome) : Fetched :=
  if is_cache_valid fs now kev_cache_file 4 then
    match fs kev_cache_file with
    | some entry =>
      match entry.data with
      | .ok v => ⟨.ok v, fs, []⟩
      | .error e => ⟨.error (.pyError e), fs, []⟩
    | none => ⟨.error (.pyError "FileNotFoundError"), fs, []⟩
  else
    match net with
    | .exn m => ⟨.error (.pyError m), fs, [kev_url]⟩
    | .resp status body =>
      if status = 200 then
        ⟨.ok body, cache_write fs kev_cache_file body now, [kev_url]⟩
      else
        ⟨.ok (.obj [("vulnerabilities", .arr [])]), fs, [kev_url]⟩

/-- `fetch_github_advisories` from the source: same cache pattern as the KEV
feed, with `[]` as the degraded value on a non-200 response. -/
def fetch_github_advisories (fs : Fs) (now : Int) (net : NetOutcome) : Fetched :=
  if is_cache_valid fs now github_cache_file 4 then
    match fs github_cache_file with
    | some entry =>
      match entry.data with
      | .ok v => ⟨.ok v, fs, []⟩
      | .error e => ⟨.error (.pyError e), fs, []⟩
    | none => ⟨.error (.pyError "FileNotFoundError"), fs, []⟩
  else
    match net with
    | .exn m => ⟨.error (.pyError m), fs, [github_url]⟩
    | .resp status body =>
      if status = 200 then
        ⟨.ok body, cache_write fs github_cache_file body now, [github_url]⟩
      else
        ⟨.ok (.arr []), fs, [github_url]⟩

/-- The `environment_context` construction, identical in
`create_analysis_prompt_json` and `create_analysis_prompt` (the source
duplicates this block verbatim in both builders).  `component_context` is
the Python dict-or-`None` (modelled as `JsonValue`, `null` for `None`);
`sys_ctx` is the process-wide `system_context`. -/
def environment_context_str (component_context : JsonValue) (sys_ctx : JsonValue) : String :=
  if pyTruthy component_context then
    "\nIMPORTANT: This analysis is for the \"" ++
      pyStr (component_context.getD "name" (.str "Unknown")) ++
      "\" component in our environment:\n" ++
      pyStr (component_context.getD "description" (.str "No description available")) ++ "\n"
  else if pyTruthy sys_ctx && pyTruthy (sys_ctx.getD "components" .null) then
    "\nOur environment includes these components that might be affected:\n" ++
      String.intercalate "\n"
        (((sys_ctx.getD "components" (.arr [])).elems.take 3).map (fun comp =>
          "- " ++ pyStr (comp.getD "name" .null) ++ ": " ++
            pyStr (comp.getD "description" (.str "")))) ++ "\n"
  else ""

/-- The `security_context` construction of `create_analysis_prompt_json`. -/
def security_context_str (sys_ctx : JsonValue) : String :=
  if pyTruthy (sys_ctx.getD "security architecture" .null) then
    "\nSecurity Architecture Context:\n" ++
      String.intercalate "\n"
        (((sys_ctx.getD "security architecture" (.arr [])).elems.take 5).map (fun item =>
          "- " ++ pyStr item)) ++ "\n"
  else ""

/-- The field extraction shared by both prompt builders (source lines
344–380 and 453–489, duplicated verbatim in the source): description, CVSS
score/severity/vector (v3.1 preferred over v3), with Python's initial
defaults `""`, `"Unknown"`, `"Unknown"`, `""`.  Returns
`(vulnerability_desc, cvss_score, severity, cvss_vector)`. -/
def extract_vuln_fields (nvd_data : JsonValue) :
    JsonValue × JsonValue × JsonValue × JsonValue :=
  if pyTruthy nvd_data && nvd_data.hasKey "vulnerabilities" then
    let vuln_data :=
      if pyTruthy (nvd_data.getD "vulnerabilities" .null) then
        (nvd_data.getD "vulnerabilities" (.arr [])).index0
      else .obj []
    let cve_details := vuln_data.getD "cve" (.obj [])
    let descriptions := cve_details.getD "descriptions" (.arr [])
    let vulnerability_desc :=
      if pyTruthy descriptions then descriptions.index0.getD "value" (.str "")
      else .str ""
    let metrics := cve_details.getD "metrics" (.obj [])
    if metrics.hasKey "cvssMetricV31" then
      let cvss_data := (metrics.getD "cvssMetricV31" (.arr [])).index0
      (vulnerability_desc,
       (cvss_data.getD "cvssData" (.obj [])).getD "baseScore" (.str "Unknown"),
       (cvss_data.getD "cvssData" (.obj [])).getD "baseSeverity" (.str "Unknown"),
       (cvss_data.getD "cvssData" (.obj [])).getD "vectorString" (.str ""))
    else if metrics.hasKey "cvssMetricV3" then
      let cvss_data := (metrics.getD "cvssMetricV3" (.arr [])).index0
      (vulnerability_desc,
       (cvss_data.getD "cvssData" (.obj [])).getD "baseScore" (.str "Unknown"),
       (cvss_data.getD "cvssData" (.obj [])).getD "baseSeverity" (.str "Unknown"),
       (cvss_data.getD "cvssData" (.obj [])).getD "vectorString" (.str ""))
    else (vulnerability_desc, .str "Unknown", .str "Unknown", .str "")
  else (.str "", .str "Unknown", .str "Unknown", .str "")

/-- The EPSS score extraction shared by both prompt builders:
`"Not available"` unless `epss_data["data"]` is truthy, in which case
`epss_data["data"][0].get("epss", "Not available")`. -/
def extract_epss_score (epss_data : JsonValue) : JsonValue :=
  if pyTruthy (epss_data.getD "data" .null) then
    (epss_data.getD "data" (.arr [])).index0.getD "epss" (.str "Not available")
  else .str "Not available"

/-- The f-string template of `create_analysis_prompt_json` (source lines
403–447), transcribed verbatim; each interpolation applies Python `str()`
(`pyStr`). -/
def json_prompt_text (cve_id vulnerability_desc cvss_score severity cvss_vector
    epss_score kev_entry : JsonValue) (environment_context security_context : String) :
    String :=
  "Analyze " ++
  pyStr cve_id ++
  " and provide a structured JSON response for vulnerability assessment.\n\nUse web search to find the latest information about:\n- Current exploitation status and active attacks\n- Available patches and fixed versions  \n- Latest security advisories and vendor statements\n- Real-world impact and exploitation difficulty\n\nAvailable data:\n- CVE: " ++
  pyStr cve_id ++
  "\n- Description: " ++
  pyStr vulnerability_desc ++
  "\n- CVSS Score: " ++
  pyStr cvss_score ++
  " (" ++
  pyStr severity ++
  ")\n- CVSS Vector: " ++
  pyStr cvss_vector ++
  "\n- EPSS Score: " ++
  pyStr epss_score ++
  "\n- Known Exploited: " ++
  (if pyTruthy kev_entry then "Yes" else "No") ++
  "\n" ++
  environment_context ++
  "\n" ++
  security_context ++
  "\n\nReturn ONLY a valid JSON object with this exact structure:\n\n\x7b\n  \"summary\": \"Brief 2-3 sentence high-level summary of the vulnerability and its significance\",\n  \"vulnerability_type\": \"Type of vulnerability (e.g., 'Remote Code Execution', 'SQL Injection', 'Authentication Bypass')\",\n  \"affected_software\": \"Name and description of affected software/product\",\n  \"vulnerable_versions\": \"Range of vulnerable versions\",\n  \"severity\": \"CRITICAL|HIGH|MEDIUM|LOW based on CVSS and real-world impact\",\n  \"cvss_score\": " ++
  (if jsonEqStr cvss_score "Unknown" then "null" else pyStr cvss_score) ++
  ",\n  \"exploitation_status\": \"ACTIVELY_EXPLOITED|PROOF_OF_CONCEPT|NO_KNOWN_EXPLOITS\",\n  \"attack_vector\": \"NETWORK|ADJACENT|LOCAL|PHYSICAL\",\n  \"attack_complexity\": \"LOW|HIGH\", \n  \"fixed_versions\": \"Range of fixed versions or 'No patch available'\",\n  \"risk_assessment\": \x7b\n    \"immediate_threat\": \"HIGH|MEDIUM|LOW - assessment based on our environment context\",\n    \"business_impact\": \"Brief description of potential business impact\",\n    \"recommendation\": \"PATCH_IMMEDIATELY|PATCH_SOON|MONITOR|LOW_PRIORITY\",\n    \"context_specific_risk\": \"Risk assessment specific to our infrastructure components\"\n  \x7d,\n  \"mitigation_steps\": [\n    \"Step 1: Specific action to take\",\n    \"Step 2: Another specific action\", \n    \"Step 3: Verification steps\"\n  ]\n\x7d\n\nFocus on providing concise, actionable, up-to-date information. Use web search to get the latest exploitation status and patch information."

/-- The f-string template of `create_analysis_prompt` (source lines
504–544), transcribed verbatim. -/
def narrative_prompt_text (cve_id vulnerability_desc cvss_score severity cvss_vector
    epss_score kev_entry : JsonValue) (environment_context : String) : String :=
  "Analyze " ++
  pyStr cve_id ++
  " and provide a practical, actionable breakdown similar to how a security expert would explain it to their team.\n\nAvailable data:\n- CVE: " ++
  pyStr cve_id ++
  "\n- Description: " ++
  pyStr vulnerability_desc ++
  "\n- CVSS Score: " ++
  pyStr cvss_score ++
  " (" ++
  pyStr severity ++
  ")\n- CVSS Vector: " ++
  pyStr cvss_vector ++
  "\n- EPSS Score: " ++
  pyStr epss_score ++
  "\n- Known Exploited: " ++
  (if pyTruthy kev_entry then "Yes" else "No") ++
  "\n" ++
  environment_context ++
  "\n\nStructure your response like this:\n\n## What is it\n\n- **Affected software**: [Name the specific software/product and what it's used for]\n- **Versions**: [List the vulnerable versions clearly - be specific]\n- **Type of issue**: [Explain what kind of vulnerability this is in simple terms]\n- **Severity**: [Mention the CVSS score and what it means practically]\n- **Attack Vector**: [How can this be exploited - network, local, etc.]\n- **Attack Complexity**: [How difficult is it to exploit]\n- **Privileges Required**: [What access does an attacker need]\n- **User Interaction**: [Does it need user action]\n\n## What it means / risk\n\n- [Explain in practical terms what an attacker could do if they exploit this]\n- [Describe the potential business impact - data breach, service disruption, etc.]\n- [Mention if this is being actively exploited in the wild]\n- [Explain why this matters for infrastructure/applications that use this software]\n\n## Mitigation / Fixes\n\n- **Patched versions**: [List the specific fixed versions - this is critical information]\n- **Upgrade instructions**: [Provide clear guidance on how to upgrade]\n- **For cloud services**: [Mention if patches are automatic or need manual action]\n- **For self-hosted**: [Explain what needs to be updated and how]\n- **Workarounds**: [If patches aren't available, what temporary measures can be taken]\n- **Verification**: [How to check if you're running a vulnerable version]\n\nFocus on being practical and actionable. Don't use generic security advice - provide specific information about versions, patches, and real-world implications. Write like you're briefing a technical team that needs to make decisions quickly."

/-- `create_analysis_prompt_json` from the source: extract the fields, build
the context strings, render the structured template. -/
def create_analysis_prompt_json (cve_data : JsonValue) (component_context : JsonValue)
    (sys_ctx : JsonValue) : String :=
  let cve_id := cve_data.getD "cve_id" (.str "Unknown")
  let nvd_data := cve_data.getD "nvd" (.obj [])
  let epss_data := cve_data.getD "epss" (.obj [])
  let kev_entry := cve_data.getD "kev" .null
  let fields := extract_vuln_fields nvd_data
  let epss_score := extract_epss_score epss_data
  let environment_context := environment_context_str component_context sys_ctx
  let security_context := security_context_str sys_ctx
  json_prompt_text cve_id fields.1 fields.2.1 fields.2.2.1 fields.2.2.2
    epss_score kev_entry environment_context security_context

/-- `create_analysis_prompt` (narrative variant) from the source. -/
def create_analysis_prompt (cve_data : JsonValue) (component_context : JsonValue)
    (sys_ctx : JsonValue) : String :=
  let cve_id := cve_data.getD "cve_id" (.str "Unknown")
  let nvd_data := cve_data.getD "nvd" (.obj [])
  let epss_data := cve_data.getD "epss" (.obj [])
  let kev_entry := cve_data.getD "kev" .null
  let fields := extract_vuln_fields nvd_data
  let epss_score := extract_epss_score epss_data
  let environment_context := environment_context_str component_context sys_ctx
  narrative_prompt_text cve_id fields.1 fields.2.1 fields.2.2.1 fields.2.2.2
    epss_score kev_entry environment_context

/-- The `AIConfig` pydantic model: provider, model name, optional API key,
Ollama endpoint URL. -/
structure AIConfig where
  provider : String
  model_name : String
  api_key : Option String
  ollama_url : String

/-- The pydantic defaults of `AIConfig` (the process-wide `ai_config` at
startup, before `load_env_config` runs). -/
def default_ai_config : AIConfig :=
  ⟨"chatgpt", "gpt-4o-mini", none, "http://localhost:11434"⟩

/-- `load_env_config` from the source: if `os.getenv("OPENAI_API_KEY")` is
truthy (present and non-empty) the key is stored on the process-wide
config; otherwise the config is left unchanged. -/
def load_env_config (env_openai_key : Option String) (cfg : AIConfig) : AIConfig :=
  match env_openai_key with
  | some k => if k != "" then { cfg with api_key := some k } else cfg
  | none => cfg

/-- `GET /api/config` from the source: `ai_config.model_dump()`, the whole
config as a dict — the API key included verbatim (`None` dumps as `null`). -/
def get_config (cfg : AIConfig) : JsonValue :=
  .obj [("provider", .str cfg.provider),
        ("model_name", .str cfg.model_name),
        ("api_key", match cfg.api_key with | some k => .str k | none => .null),
        ("ollama_url", .str cfg.ollama_url)]

/-- The two outbound OpenAI SDK calls `analyze_with_chatgpt` can issue, in
the order they appear in the source. -/
inductive OAICall where
  | responsesCreate
  | chatCompletionsCreate

/-- Oracle for `client.responses.create`: a raised exception, a response
object without an `output_text` attribute, or a response with text. -/
inductive RespOutcome where
  | exn (msg : String)
  | respNoOutputText
  | respText (content : String)

/-- Oracle for `client.chat.completions.create`: a raised exception, a
response with no choices, or a response whose first choice carries text. -/
inductive ChatOutcome where
  | exn (msg : String)
  | respEmptyChoices
  | respText (content : String)

/-- The error-message rewriting of `analyze_with_chatgpt`'s outer `except`:
known substrings of `str(e).lower()` are replaced by user-facing messages,
anything else passes through. -/
def rewrite_openai_error (cfg : AIConfig) (m : String) : String :=
  let lower := m.toLower
  if strContains lower "authentication" then
    "Authentication failed. Please check your OpenAI API key."
  else if strContains lower "rate limit" then
    "Rate limit exceeded. Please wait and try again."
  else if strContains lower "model" && strContains lower "not found" then
    "Model '" ++ cfg.model_name ++ "' not found or not accessible."
  else m

/-- The degraded result `analyze_with_chatgpt` builds when the responses-API
text does not parse as JSON (source lines 260–269). -/
def chatgpt_parse_fallback (content : String) : JsonValue :=
  .obj [("error", .bool false),
        ("summary", .str (if content.length > 200 then content.take 200 ++ "..." else content)),
        ("vulnerability_type", .str "Unknown"),
        ("severity", .str "Unknown"),
        ("exploitation_status", .str "Unknown"),
        ("fixed_versions", .arr []),
        ("risk_assessment", .str "Unable to parse structured response"),
        ("raw_response", .str content)]

/-- The degraded result for an unparsable chat-completions text (source
lines 308–317): identical apart from the `risk_assessment` marker. -/
def chatgpt_parse_fallback_chat (content : String) : JsonValue :=
  .obj [("error", .bool false),
        ("summary", .str (if content.length > 200 then content.take 200 ++ "..." else content)),
        ("vulnerability_type", .str "Unknown"),
        ("severity", .str "Unknown"),
        ("exploitation_status", .str "Unknown"),
        ("fixed_versions", .arr []),
        ("risk_assessment", .str "Unable to parse structured response - Chat completions used"),
        ("raw_response", .str content)]

/-- The `except responses_error:` block of `analyze_with_chatgpt`: the
chat-completions fallback attempted after any failure of the responses API.
By this point the responses call has already been issued, so the call list
always holds both calls in order; an exception escaping this fallback is
rewritten by the outer handler into an error dict. -/
def chatgpt_chat_fallback (cfg : AIConfig) (parse : String → Option JsonValue)
    (c : ChatOutcome) : JsonValue × List OAICall :=
  match c with
  | .respText content =>
    match parse content with
    | some analysis_json => (analysis_json, [.responsesCreate, .chatCompletionsCreate])
    | none => (chatgpt_parse_fallback_chat content, [.responsesCreate, .chatCompletionsCreate])
  | .respEmptyChoices =>
    (.obj [("error", .bool true),
           ("message", .str "No response content received from OpenAI API")],
     [.responsesCreate, .chatCompletionsCreate])
  | .exn m =>
    (.obj [("error", .bool true),
           ("message", .str ("ChatGPT Analysis error: " ++ rewrite_openai_error cfg m))],
     [.responsesCreate, .chatCompletionsCreate])

/-- `analyze_with_chatgpt` from the source.  `parse` models `json.loads`
(`none` = `JSONDecodeError`).  Returns the result value and the list of
outbound OpenAI calls issued, in order.  Control flow, faithfully:
no API key → immediate configuration-error dict, zero calls; otherwise the
responses API is tried first and *any* failure of it (exception or missing
`output_text`, which the source turns into a raised exception) falls back
to chat completions. -/
def analyze_with_chatgpt (cfg : AIConfig) (sys_ctx : JsonValue)
    (parse : String → Option JsonValue) (r : RespOutcome) (c : ChatOutcome)
    (cve_data : JsonValue) (component_context : JsonValue) :
    JsonValue × List OAICall :=
  if !truthyOptStr cfg.api_key then
    (.obj [("error", .bool true),
           ("message", .str "ChatGPT API key not configured. Please set your OpenAI API key in the configuration.")],
     [])
  else
    let _prompt := create_analysis_prompt_json cve_data component_context sys_ctx
    match r with
    | .respText content =>
      match parse content with
      | some analysis_json => (analysis_json, [.responsesCreate])
      | none => (chatgpt_parse_fallback content, [.responsesCreate])
    | _ =>
      -- responses API raised, or its structure was unexpected (the source
      -- raises and catches that too): fall back to chat completions
      chatgpt_chat_fallback cfg parse c

/-- Oracle for the Ollama `/api/generate` POST: the source's outer handlers
distinguish `httpx.TimeoutException`, `httpx.ConnectError` and any other
exception; a response carries status, decoded JSON body and raw text. -/
inductive GenOutcome where
  | timeoutExn (msg : String)
  | connectExn (msg : String)
  | otherExn (msg : String)
  | resp (status : Nat) (body : JsonValue) (text : String)

/-- `analyze_with_ollama` from the source.  `tags` is the oracle for the
`/api/tags` liveness probe (its exceptions are caught by the inner
try/except), `gen` for the generate call (its exceptions reach the outer
handlers).  The function returns whatever Python returns: a diagnostic
string on every failure path, or the raw `response` field of the generate
body — never a dict with an error flag. -/
def analyze_with_ollama (cfg : AIConfig) (sys_ctx : JsonValue)
    (tags : NetOutcome) (gen : GenOutcome)
    (cve_data : JsonValue) (component_context : JsonValue) : JsonValue :=
  let _prompt := create_analysis_prompt cve_data component_context sys_ctx
  match tags with
  | .exn m =>
    .str ("Cannot connect to Ollama at " ++ cfg.ollama_url ++
      ". Please check if Ollama is running. Error: " ++ m)
  | .resp status body =>
    if status ≠ 200 then
      .str "Ollama service is not running. Please start Ollama first."
    else
      let available_models := (body.getD "models" (.arr [])).elems.map
        (fun mo => mo.getD "name" (.str ""))
      if !available_models.any (fun mo => jsonEqStr mo cfg.model_name) then
        .str ("Model '" ++ cfg.model_name ++ "' not found. Available models: " ++
          (if !available_models.isEmpty then
            String.intercalate ", " (available_models.map pyStr)
          else "None"))
      else
        match gen with
        | .timeoutExn _ =>
          .str "AI Analysis timeout. The analysis is taking longer than expected. Try with a smaller model or increase timeout."
        | .connectExn _ =>
          .str ("Cannot connect to Ollama at " ++ cfg.ollama_url ++
            ". Please ensure Ollama is running and accessible.")
        | .otherExn m => .str ("AI Analysis error: " ++ m)
        | .resp status body text =>
          if status = 200 then
            let response_text := body.getD "response" (.str "")
            if pyTruthy response_text then response_text
            else .str "Analysis completed but no response received"
          else
            .str ("Ollama API error: HTTP " ++ toString status ++ " - " ++ text)

/-- The oracles for one enrichment invocation (both backends' outbound
calls). -/
structure AIOracles where
  tags : NetOutcome
  generate : GenOutcome
  responses_api : RespOutcome
  chat : ChatOutcome

/-- `perform_ai_analysis` from the source: dispatch on the configured
provider; an unknown provider yields the fixed error dict. -/
def perform_ai_analysis (cfg : AIConfig) (sys_ctx : JsonValue)
    (parse : String → Option JsonValue) (aio : AIOracles)
    (cve_data : JsonValue) (component_context : JsonValue) : JsonValue :=
  if cfg.provider = "ollama" then
    analyze_with_ollama cfg sys_ctx aio.tags aio.generate cve_data component_context
  else if cfg.provider = "chatgpt" then
    (analyze_with_chatgpt cfg sys_ctx parse aio.responses_api aio.chat
      cve_data component_context).1
  else
    .obj [("error", .bool true), ("message", .str "AI analysis not configured")]

/-- The `CVERequest` pydantic model. -/
structure CVERequest where
  cve_id : String
  component : Option String
  ai_analysis : Bool

/-- Oracles for the four feed fetches of one aggregation call. -/
structure FeedOracles where
  nvd : NetOutcome
  epss : NetOutcome
  kev : NetOutcome
  github : NetOutcome

/-- `POST /api/analyze` (`analyze_cve`) from the source.  The whole body is
wrapped in `try/except Exception`, and the handler re-raises every caught
exception — `fetch_nvd_data`'s `HTTPException(404, …)` included, since
`HTTPException` subclasses `Exception` — as `HTTPException(500, str(e))`.
On success returns the compiled `analysis_data` record and the filesystem
after any cache refreshes. -/
def analyze_cve (req : CVERequest) (cfg : AIConfig) (sys_ctx : JsonValue)
    (parse : String → Option JsonValue) (fs : Fs) (now : Int)
    (o : FeedOracles) (aio : AIOracles) : Except PyExn (JsonValue × Fs) :=
  match fetch_nvd_data req.cve_id o.nvd with
  | .error e => .error (.httpException 500 (pyExnStr e))
  | .ok nvd_data =>
  match fetch_epss_data req.cve_id o.epss with
  | .error e => .error (.httpException 500 (pyExnStr e))
  | .ok epss_data =>
  match fetch_kev_data fs now o.kev with
  | ⟨.error e, _, _⟩ => .error (.httpException 500 (pyExnStr e))
  | ⟨.ok kev_data, fs1, _⟩ =>
  match fetch_github_advisories fs1 now o.github with
  | ⟨.error e, _, _⟩ => .error (.httpException 500 (pyExnStr e))
  | ⟨.ok github_advisories, fs2, _⟩ =>
    let kev_entry :=
      match (kev_data.getD "vulnerabilities" (.arr [])).elems.find?
          (fun vuln => jsonEqStr (vuln.getD "cveID" .null) req.cve_id) with
      | some v => v
      | none => JsonValue.null
    let github_entry :=
      match github_advisories.elems.find? (fun advisory =>
          ((advisory.getD "cves" (.arr [])).elems.map
            (fun cve => cve.getD "number" .null)).any
            (fun n => jsonEqStr n req.cve_id)) with
      | some a => a
      | none => JsonValue.null
    let component_context :=
      match req.component with
      | some comp_name =>
        if comp_name != "" && pyTruthy sys_ctx then
          match (sys_ctx.getD "components" (.arr [])).elems.find? (fun comp =>
              (match comp.getD "name" (.str "") with
               | .str s => s.toLower
               | _ => "") == comp_name.toLower) with
          | some c => c
          | none => JsonValue.null
        else JsonValue.null
      | none => JsonValue.null
    let analysis_data : JsonValue :=
      .obj [("cve_id", .str req.cve_id),
            ("nvd", nvd_data),
            ("epss", epss_data),
            ("kev", kev_entry),
            ("github", github_entry),
            ("component", component_context),
            ("ai_analysis", .null)]
    if req.ai_analysis then
      let ai_result := perform_ai_analysis cfg sys_ctx parse aio analysis_data component_context
      .ok (analysis_data.setKey "ai_analysis" ai_result, fs2)
    else
      .ok (analysis_data, fs2)

/-- Whether an enrichment result carries an explicit error tag: it is a
dict with an `"error"` key (formalisation device for the spec's "tagged
with whether the provider reported an error"). -/
def hasErrorTag (v : JsonValue) : Bool :=
  match v with
  | .obj fields => (fields.lookup "error").isSome
  | _ => false

/-! ## Helper lemmas (shared) -/

theorem is_cache_valid_of_none (fs : Fs) (now : Int) (p : String) (h : fs p = none) :
    is_cache_valid fs now p 4 = false := by
  simp [is_cache_valid, h]

theorem cache_write_self (fs : Fs) (p : String) (v : JsonValue) (t : Int) :
    cache_write fs p v t p = some ⟨.ok v, t⟩ := by
  simp [cache_write]

/-! ## Claims -/

/-- C1: a `put` (the cache write performed by a KEV refetch) immediately
followed by a `get` within the 4-hour freshness window returns exactly the
stored payload with no network call; a `get` once `now - writeTime ≥ 4h`
is a miss even though the file still exists, and triggers a live refetch
(whose 200 response is returned fresh and overwrites the file) rather than
a stale return. -/
theorem kev_cache_put_get_roundtrip_and_expiry
    (fs : Fs) (t_put now later : Int) (payload : JsonValue) (net net2 : NetOutcome)
    (h0 : is_cache_valid fs t_put kev_cache_file 4 = false)
    (hfresh : now - t_put < 4 * 3600)
    (hstale : later - t_put ≥ 4 * 3600) :
    (fetch_kev_data fs t_put (.resp 200 payload)).result = .ok payload ∧
    (fetch_kev_data fs t_put (.resp 200 payload)).fs =
      cache_write fs kev_cache_file payload t_put ∧
    fetch_kev_data (cache_write fs kev_cache_file payload t_put) now net =
      ⟨.ok payload, cache_write fs kev_cache_file payload t_put, []⟩ ∧
    ((cache_write fs kev_cache_file payload t_put) kev_cache_file).isSome = true ∧
    (fetch_kev_data (cache_write fs kev_cache_file payload t_put) later net2).netCalls =
      [kev_url] ∧
    (∀ d, fetch_kev_data (cache_write fs kev_cache_file payload t_put) later (.resp 200 d) =
      ⟨.ok d, cache_write (cache_write fs kev_cache_file payload t_put) kev_cache_file d later,
       [kev_url]⟩) := by
  have hvalid : is_cache_valid (cache_write fs kev_cache_file payload t_put) now
      kev_cache_file 4 = true := by
    simp [is_cache_valid, cache_write_self]
    omega
  have hexpired : is_cache_valid (cache_write fs kev_cache_file payload t_put) later
      kev_cache_file 4 = false := by
    simp [is_cache_valid, cache_write_self]
    omega
  refine ⟨?_, ?_, ?_, ?_, ?_, ?_⟩
  · simp [fetch_kev_data, h0]
  · simp [fetch_kev_data, h0]
  · simp [fetch_kev_data, hvalid, cache_write_self]
  · simp [cache_write_self]
  · rw [fetch_kev_data.eq_def, hexpired]
    cases net2 with
    | exn m => rfl
    | resp status body =>
      by_cases hs : status = 200 <;> simp [hs]
  · intro d
    rw [fetch_kev_data.eq_def, hexpired]
    rfl

theorem kev_cache_put_get_roundtrip_and_expiry_witness :
    (fetch_kev_data (fun _ => none) 0 (.resp 200 (.obj []))).result = .ok (.obj []) ∧
    fetch_kev_data (cache_write (fun _ => none) kev_cache_file (.obj []) 0) 100 (.exn "e") =
      ⟨.ok (.obj []), cache_write (fun _ => none) kev_cache_file (.obj []) 0, []⟩ ∧
    ((cache_write (fun _ => none) kev_cache_file (.obj []) 0) kev_cache_file).isSome = true ∧
    (fetch_kev_data (cache_write (fun _ => none) kev_cache_file (.obj []) 0) 14400
      (.exn "e")).netCalls = [kev_url] ∧
    fetch_kev_data (cache_write (fun _ => none) kev_cache_file (.obj []) 0) 14400
      (.resp 200 (.str "fresh")) =
      ⟨.ok (.str "fresh"), cache_write (cache_write (fun _ => none) kev_cache_file (.obj []) 0)
        kev_cache_file (.str "fresh") 14400, [kev_url]⟩ :=
  have h := kev_cache_put_get_roundtrip_and_expiry (fun _ => none) 0 100 14400 (.obj [])
    (.exn "e") (.exn "e") (by rfl) (by decide) (by decide)
  ⟨h.1, h.2.2.1, h.2.2.2.1, h.2.2.2.2.1, h.2.2.2.2.2 (.str "fresh")⟩

/-- C2 (counterexample): a non-200 upstream response for an identifier that
does exist (here a 503, a transport-level failure) yields the very same
terminal not-found outcome (`HTTPException(404, "CVE … not found")`) as a
genuine not-found — the two outcomes are not distinct. -/
theorem nvd_transport_equals_notfound_counterexample :
    fetch_nvd_data "CVE-2021-44228" (.resp 503 (.obj [])) =
      .error (.httpException 404 "CVE CVE-2021-44228 not found") ∧
    fetch_nvd_data "CVE-2021-44228" (.resp 503 (.obj [])) =
      fetch_nvd_data "CVE-2021-44228" (.resp 404 (.obj [])) :=
  ⟨rfl, rfl⟩

/-- C2 (amended): the NVD adapter yields the terminal not-found outcome
(`HTTPException(404, "CVE <id> not found")`) for every non-200 HTTP
response, regardless of whether the identifier exists upstream; only a
connection-level transport exception yields a distinct (propagated,
non-`HTTPException`) outcome, and only a 200 response yields data. -/
theorem nvd_notfound_amended (cve_id : String) (body : JsonValue) (s : Nat) (m : String)
    (hs : s ≠ 200) :
    fetch_nvd_data cve_id (.resp 200 body) = .ok body ∧
    fetch_nvd_data cve_id (.resp s body) =
      .error (.httpException 404 ("CVE " ++ cve_id ++ " not found")) ∧
    fetch_nvd_data cve_id (.exn m) = .error (.pyError m) := by
  refine ⟨rfl, ?_, rfl⟩
  simp [fetch_nvd_data, hs]

theorem nvd_notfound_amended_witness :
    fetch_nvd_data "CVE-1" (.resp 200 (.obj [])) = .ok (.obj []) ∧
    fetch_nvd_data "CVE-1" (.resp 500 (.obj [])) =
      .error (.httpException 404 ("CVE " ++ "CVE-1" ++ " not found")) ∧
    fetch_nvd_data "CVE-1" (.exn "boom") = .error (.pyError "boom") :=
  nvd_notfound_amended "CVE-1" (.obj []) 500 "boom" (by decide)

/-- C3 (counterexample): a filesystem error while reading a *fresh* KEV
cache file does not degrade to a miss — `fetch_kev_data` propagates the
exception to the caller and performs no refetch (no network call), even
though the upstream would have answered 200. -/
theorem kev_cache_read_error_propagates_counterexample :
    fetch_kev_data
      (fun p => if p = kev_cache_file then
        some ⟨.error "PermissionError: [Errno 13] Permission denied: 'cache/kev.json'", 0⟩
       else none)
      100 (.resp 200 (.obj [("vulnerabilities", .arr [])])) =
    ⟨.error (.pyError "PermissionError: [Errno 13] Permission denied: 'cache/kev.json'"),
     (fun p => if p = kev_cache_file then
        some ⟨.error "PermissionError: [Errno 13] Permission denied: 'cache/kev.json'", 0⟩
      else none),
     []⟩ := by
  rfl

/-- C3 (amended): an *absent* cache file degrades to a miss followed by a
live refetch, for both cached feeds; but a filesystem or decode error while
reading a fresh cache file propagates the exception to the caller (no
refetch) — reads of fresh files are not protected. -/
theorem cached_feed_read_error_amended (fs : Fs) (now : Int) (net : NetOutcome) :
    (fs kev_cache_file = none → (fetch_kev_data fs now net).netCalls = [kev_url]) ∧
    (fs github_cache_file = none →
      (fetch_github_advisories fs now net).netCalls = [github_url]) ∧
    (∀ e t, fs kev_cache_file = some ⟨.error e, t⟩ → now - t < 4 * 3600 →
      fetch_kev_data fs now net = ⟨.error (.pyError e), fs, []⟩) ∧
    (∀ e t, fs github_cache_file = some ⟨.error e, t⟩ → now - t < 4 * 3600 →
      fetch_github_advisories fs now net = ⟨.error (.pyError e), fs, []⟩) := by
  refine ⟨?_, ?_, ?_, ?_⟩
  · intro h
    rw [fetch_kev_data.eq_def, is_cache_valid_of_none fs now _ h]
    cases net with
    | exn m => rfl
    | resp status body => by_cases hs : status = 200 <;> simp [hs]
  · intro h
    rw [fetch_github_advisories.eq_def, is_cache_valid_of_none fs now _ h]
    cases net with
    | exn m => rfl
    | resp status body => by_cases hs : status = 200 <;> simp [hs]
  · intro e t h hfresh
    have hvalid : is_cache_valid fs now kev_cache_file 4 = true := by
      simp [is_cache_valid, h]
      omega
    rw [fetch_kev_data.eq_def, hvalid]
    simp [h]
  · intro e t h hfresh
    have hvalid : is_cache_valid fs now github_cache_file 4 = true := by
      simp [is_cache_valid, h]
      omega
    rw [fetch_github_advisories.eq_def, hvalid]
    simp [h]

theorem cached_feed_read_error_amended_witness :
    (fetch_kev_data (fun _ => none) 0 (.exn "e")).netCalls = [kev_url] ∧
    (fetch_github_advisories (fun _ => none) 0 (.exn "e")).netCalls = [github_url] ∧
    fetch_kev_data (fun _ => some ⟨.error "OSError", 0⟩) 100 (.exn "e") =
      ⟨.error (.pyError "OSError"), fun _ => some ⟨.error "OSError", 0⟩, []⟩ ∧
    fetch_github_advisories (fun _ => some ⟨.error "OSError", 0⟩) 100 (.exn "e") =
      ⟨.error (.pyError "OSError"), fun _ => some ⟨.error "OSError", 0⟩, []⟩ :=
  have hmiss := cached_feed_read_error_amended (fun _ => none) 0 (.exn "e")
  have herr := cached_feed_read_error_amended (fun _ => some ⟨.error "OSError", 0⟩) 100 (.exn "e")
  ⟨hmiss.1 rfl, hmiss.2.1 rfl,
   herr.2.2.1 "OSError" 0 rfl (by decide),
   herr.2.2.2 "OSError" 0 rfl (by decide)⟩

/-- C4 (counterexample): a transport exception raised by the known-exploited
feed adapter is *not* degraded to an empty list — `analyze_cve`'s blanket
`except` turns it into `HTTPException(500, …)`, aborting the whole call with
no canonical record, even though the primary database answered 200. -/
theorem global_feed_exception_aborts_counterexample :
    analyze_cve ⟨"CVE-2024-1234", none, false⟩ default_ai_config (.obj [])
      (fun _ => none) (fun _ => none) 0
      ⟨.resp 200 (.obj [("vulnerabilities", .arr [])]),
       .resp 200 (.obj [("data", .arr [])]),
       .exn "All connection attempts failed",
       .resp 200 (.arr [])⟩
      ⟨.resp 200 (.obj []), .otherExn "x", .respNoOutputText, .exn "y"⟩ =
    .error (.httpException 500 "All connection attempts failed") := by
  rfl

/-- C4 (amended): a *non-200 response* from either global-list adapter
degrades to an empty list for that source — the correlation entry becomes
`null` and aggregation still returns the canonical record; but a transport
*exception* from either global-list adapter is fatal for the whole call
(500), so primary-database failure is not the only fatal case. -/
theorem global_feed_degradation_amended (id m : String)
    (nvdBody epssBody kevBody ghBody : JsonValue) (sk sg : Nat)
    (cfg : AIConfig) (sys : JsonValue) (parse : String → Option JsonValue)
    (fs : Fs) (now : Int) (aio : AIOracles)
    (hk : sk ≠ 200) (hg : sg ≠ 200)
    (hfk : fs kev_cache_file = none) (hfg : fs github_cache_file = none) :
    analyze_cve ⟨id, none, false⟩ cfg sys parse fs now
      ⟨.resp 200 nvdBody, .resp 200 epssBody, .resp sk kevBody, .resp sg ghBody⟩ aio =
      .ok (.obj [("cve_id", .str id), ("nvd", nvdBody), ("epss", epssBody),
                 ("kev", .null), ("github", .null), ("component", .null),
                 ("ai_analysis", .null)], fs) ∧
    analyze_cve ⟨id, none, false⟩ cfg sys parse fs now
      ⟨.resp 200 nvdBody, .resp 200 epssBody, .exn m, .resp sg ghBody⟩ aio =
      .error (.httpException 500 m) ∧
    analyze_cve ⟨id, none, false⟩ cfg sys parse fs now
      ⟨.resp 200 nvdBody, .resp 200 epssBody, .resp sk kevBody, .exn m⟩ aio =
      .error (.httpException 500 m) := by
  have hkev : fetch_kev_data fs now (.resp sk kevBody) =
      ⟨.ok (.obj [("vulnerabilities", .arr [])]), fs, [kev_url]⟩ := by
    rw [fetch_kev_data.eq_def, is_cache_valid_of_none fs now _ hfk]
    simp [hk]
  have hgh : fetch_github_advisories fs now (.resp sg ghBody) =
      ⟨.ok (.arr []), fs, [github_url]⟩ := by
    rw [fetch_github_advisories.eq_def, is_cache_valid_of_none fs now _ hfg]
    simp [hg]
  have hkevExn : fetch_kev_data fs now (.exn m) = ⟨.error (.pyError m), fs, [kev_url]⟩ := by
    rw [fetch_kev_data.eq_def, is_cache_valid_of_none fs now _ hfk]
    rfl
  have hghExn : fetch_github_advisories fs now (.exn m) =
      ⟨.error (.pyError m), fs, [github_url]⟩ := by
    rw [fetch_github_advisories.eq_def, is_cache_valid_of_none fs now _ hfg]
    rfl
  refine ⟨?_, ?_, ?_⟩
  · rw [analyze_cve.eq_def]
    simp only [fetch_nvd_data, fetch_epss_data, hkev, hgh]
    rfl
  · rw [analyze_cve.eq_def]
    simp only [fetch_nvd_data, fetch_epss_data, hkevExn]
    rfl
  · rw [analyze_cve.eq_def]
    simp only [fetch_nvd_data, fetch_epss_data, hkev, hghExn]
    rfl

theorem global_feed_degradation_amended_witness :
    analyze_cve ⟨"CVE-1", none, false⟩ default_ai_config (.obj [])
      (fun _ => none) (fun _ => none) 0
      ⟨.resp 200 (.obj []), .resp 200 (.obj []), .resp 503 (.obj []), .resp 503 (.obj [])⟩
      ⟨.resp 200 (.obj []), .otherExn "x", .respNoOutputText, .exn "y"⟩ =
      .ok (.obj [("cve_id", .str "CVE-1"), ("nvd", .obj []), ("epss", .obj []),
                 ("kev", .null), ("github", .null), ("component", .null),
                 ("ai_analysis", .null)], fun _ => none) ∧
    analyze_cve ⟨"CVE-1", none, false⟩ default_ai_config (.obj [])
      (fun _ => none) (fun _ => none) 0
      ⟨.resp 200 (.obj []), .resp 200 (.obj []), .exn "boom", .resp 503 (.obj [])⟩
      ⟨.resp 200 (.obj []), .otherExn "x", .respNoOutputText, .exn "y"⟩ =
      .error (.httpException 500 "boom") ∧
    analyze_cve ⟨"CVE-1", none, false⟩ default_ai_config (.obj [])
      (fun _ => none) (fun _ => none) 0
      ⟨.resp 200 (.obj []), .resp 200 (.obj []), .resp 503 (.obj []), .exn "boom"⟩
      ⟨.resp 200 (.obj []), .otherExn "x", .respNoOutputText, .exn "y"⟩ =
      .error (.httpException 500 "boom") :=
  global_feed_degradation_amended "CVE-1" "boom" (.obj []) (.obj []) (.obj []) (.obj [])
    503 503 default_ai_config (.obj []) (fun _ => none) (fun _ => none) 0
    ⟨.resp 200 (.obj []), .otherExn "x", .respNoOutputText, .exn "y"⟩
    (by decide) (by decide) rfl rfl

/-- C5: routing an enrichment request to the ChatGPT backend with no API
key configured (absent or empty) returns immediately with `error = true`
and the configuration-specific message, and issues zero outbound calls. -/
theorem chatgpt_no_key_returns_config_error (cfg : AIConfig) (sys cve cc : JsonValue)
    (parse : String → Option JsonValue) (r : RespOutcome) (c : ChatOutcome)
    (h : truthyOptStr cfg.api_key = false) :
    analyze_with_chatgpt cfg sys parse r c cve cc =
      (.obj [("error", .bool true),
             ("message", .str "ChatGPT API key not configured. Please set your OpenAI API key in the configuration.")],
       []) := by
  simp [analyze_with_chatgpt, h]

theorem chatgpt_no_key_returns_config_error_witness :
    analyze_with_chatgpt default_ai_config (.obj []) (fun _ => none)
      (.respText "hello") (.respText "hello") (.obj []) .null =
      (.obj [("error", .bool true),
             ("message", .str "ChatGPT API key not configured. Please set your OpenAI API key in the configuration.")],
       []) :=
  chatgpt_no_key_returns_config_error default_ai_config (.obj []) (.obj []) .null
    (fun _ => none) (.respText "hello") (.respText "hello") rfl

/-- C6: with an API key present, the search-augmented (responses API)
request is attempted first, and when it fails for any reason — a raised
exception or the unexpected-structure case the source converts into one —
the conventional chat-completions call is attempted before any final error,
so exactly two distinct outbound calls occur, in that order. -/
theorem chatgpt_fallback_issues_two_calls (cfg : AIConfig) (sys cve cc : JsonValue)
    (parse : String → Option JsonValue) (c : ChatOutcome) (m : String)
    (h : truthyOptStr cfg.api_key = true) :
    (analyze_with_chatgpt cfg sys parse (.exn m) c cve cc).2 =
      [.responsesCreate, .chatCompletionsCreate] ∧
    (analyze_with_chatgpt cfg sys parse .respNoOutputText c cve cc).2 =
      [.responsesCreate, .chatCompletionsCreate] ∧
    (∀ content, (analyze_with_chatgpt cfg sys parse (.respText content) c cve cc).2 =
      [.responsesCreate]) := by
  have hfb : ∀ c', (chatgpt_chat_fallback cfg parse c').2 =
      [OAICall.responsesCreate, OAICall.chatCompletionsCreate] := by
    intro c'
    cases c' with
    | respText content =>
      simp only [chatgpt_chat_fallback]
      cases parse content <;> rfl
    | respEmptyChoices => rfl
    | exn m2 => rfl
  refine ⟨?_, ?_, ?_⟩
  · simp only [analyze_with_chatgpt, h, Bool.not_true, Bool.false_eq_true, if_false]
    exact hfb c
  · simp only [analyze_with_chatgpt, h, Bool.not_true, Bool.false_eq_true, if_false]
    exact hfb c
  · intro content
    simp only [analyze_with_chatgpt, h, Bool.not_true, Bool.false_eq_true, if_false]
    cases parse content <;> rfl

theorem chatgpt_fallback_issues_two_calls_witness :
    (analyze_with_chatgpt ⟨"chatgpt", "gpt-4o-mini", some "sk-test", "u"⟩ (.obj [])
      (fun _ => none) (.exn "400 Bad Request") (.respText "text") (.obj []) .null).2 =
      [.responsesCreate, .chatCompletionsCreate] ∧
    (analyze_with_chatgpt ⟨"chatgpt", "gpt-4o-mini", some "sk-test", "u"⟩ (.obj [])
      (fun _ => none) .respNoOutputText (.respText "text") (.obj []) .null).2 =
      [.responsesCreate, .chatCompletionsCreate] ∧
    (analyze_with_chatgpt ⟨"chatgpt", "gpt-4o-mini", some "sk-test", "u"⟩ (.obj [])
      (fun _ => none) (.respText "reply") (.respText "text") (.obj []) .null).2 =
      [.responsesCreate] :=
  have h := chatgpt_fallback_issues_two_calls ⟨"chatgpt", "gpt-4o-mini", some "sk-test", "u"⟩
    (.obj []) (.obj []) .null (fun _ => none) (.respText "text") "400 Bad Request" rfl
  ⟨h.1, h.2.1, h.2.2 "reply"⟩

/-- C7: when the model's text is not valid JSON, `analyze_with_chatgpt`
still returns a well-formed result object — the summary truncated to 200
characters (with `"..."` appended when longer) and an explicit
unable-to-parse marker in `risk_assessment` — and raises nothing, on both
the responses-API path and the chat-completions fallback path. -/
theorem chatgpt_unparsable_text_degrades (cfg : AIConfig) (sys cve cc : JsonValue)
    (parse : String → Option JsonValue) (c : ChatOutcome) (content m : String)
    (h : truthyOptStr cfg.api_key = true) (hp : parse content = none) :
    (analyze_with_chatgpt cfg sys parse (.respText content) c cve cc).1 =
      .obj [("error", .bool false),
            ("summary", .str (if content.length > 200 then content.take 200 ++ "..." else content)),
            ("vulnerability_type", .str "Unknown"),
            ("severity", .str "Unknown"),
            ("exploitation_status", .str "Unknown"),
            ("fixed_versions", .arr []),
            ("risk_assessment", .str "Unable to parse structured response"),
            ("raw_response", .str content)] ∧
    (analyze_with_chatgpt cfg sys parse (.exn m) (.respText content) cve cc).1 =
      .obj [("error", .bool false),
            ("summary", .str (if content.length > 200 then content.take 200 ++ "..." else content)),
            ("vulnerability_type", .str "Unknown"),
            ("severity", .str "Unknown"),
            ("exploitation_status", .str "Unknown"),
            ("fixed_versions", .arr []),
            ("risk_assessment", .str "Unable to parse structured response - Chat completions used"),
            ("raw_response", .str content)] := by
  constructor
  · simp only [analyze_with_chatgpt, h, Bool.not_true, Bool.false_eq_true, if_false]
    simp [hp, chatgpt_parse_fallback]
  · simp only [analyze_with_chatgpt, h, Bool.not_true, Bool.false_eq_true, if_false]
    simp [chatgpt_chat_fallback, hp, chatgpt_parse_fallback_chat]

theorem chatgpt_unparsable_text_degrades_witness :
    (analyze_with_chatgpt ⟨"chatgpt", "gpt-4o-mini", some "sk-test", "u"⟩ (.obj [])
      (fun _ => none) (.respText "Sorry, I cannot produce JSON here.")
      .respEmptyChoices (.obj []) .null).1 =
      .obj [("error", .bool false),
            ("summary", .str (if ("Sorry, I cannot produce JSON here." : String).length > 200
              then ("Sorry, I cannot produce JSON here." : String).take 200 ++ "..."
              else "Sorry, I cannot produce JSON here.")),
            ("vulnerability_type", .str "Unknown"),
            ("severity", .str "Unknown"),
            ("exploitation_status", .str "Unknown"),
            ("fixed_versions", .arr []),
            ("risk_assessment", .str "Unable to parse structured response"),
            ("raw_response", .str "Sorry, I cannot produce JSON here.")] ∧
    (analyze_with_chatgpt ⟨"chatgpt", "gpt-4o-mini", some "sk-test", "u"⟩ (.obj [])
      (fun _ => none) (.exn "boom") (.respText "Sorry, I cannot produce JSON here.")
      (.obj []) .null).1 =
      .obj [("error", .bool false),
            ("summary", .str (if ("Sorry, I cannot produce JSON here." : String).length > 200
              then ("Sorry, I cannot produce JSON here." : String).take 200 ++ "..."
              else "Sorry, I cannot produce JSON here.")),
            ("vulnerability_type", .str "Unknown"),
            ("severity", .str "Unknown"),
            ("exploitation_status", .str "Unknown"),
            ("fixed_versions", .arr []),
            ("risk_assessment", .str "Unable to parse structured response - Chat completions used"),
            ("raw_response", .str "Sorry, I cannot produce JSON here.")] :=
  chatgpt_unparsable_text_degrades ⟨"chatgpt", "gpt-4o-mini", some "sk-test", "u"⟩
    (.obj []) (.obj []) .null (fun _ => none) .respEmptyChoices
    "Sorry, I cannot produce JSON here." "boom" rfl rfl

set_option maxRecDepth 100000 in
/-- C8 (counterexample): on a record with no NVD data both prompt builders
render the missing description and missing CVSS vector as a bare empty
string right after their labels — an unmarked empty value, not an
`"Unknown"`/`"Not available"` placeholder. -/
theorem prompt_missing_field_unmarked_counterexample :
    strContains (create_analysis_prompt (.obj []) .null (.obj []))
      "- Description: \n- CVSS Score: Unknown (Unknown)\n- CVSS Vector: \n- EPSS Score: Not available\n" = true ∧
    strContains (create_analysis_prompt_json (.obj []) .null (.obj []))
      "- Description: \n- CVSS Score: Unknown (Unknown)\n- CVSS Vector: \n- EPSS Score: Not available\n" = true ∧
    strContains (create_analysis_prompt (.obj []) .null (.obj []))
      "- Description: Unknown" = false ∧
    strContains (create_analysis_prompt (.obj []) .null (.obj []))
      "- Description: Not available" = false := by
  refine ⟨by decide, by decide, by decide, by decide⟩

set_option maxRecDepth 100000 in
/-- C8 (amended): on a record missing every extracted field, both prompt
builders render the CVSS score and severity as the `"Unknown"` placeholder
and the exploitation-probability score as `"Not available"`, and the
known-exploited flag always renders as `"Yes"`/`"No"`; but the missing
description and CVSS vector are interpolated as plain empty strings after
their labels — they are the two fields without a placeholder. -/
theorem prompt_placeholder_amended (id : String) :
    create_analysis_prompt (.obj [("cve_id", .str id)]) .null (.obj []) =
      narrative_prompt_text (.str id) (.str "") (.str "Unknown") (.str "Unknown")
        (.str "") (.str "Not available") .null "" ∧
    create_analysis_prompt_json (.obj [("cve_id", .str id)]) .null (.obj []) =
      json_prompt_text (.str id) (.str "") (.str "Unknown") (.str "Unknown")
        (.str "") (.str "Not available") .null "" "" ∧
    strContains (create_analysis_prompt (.obj []) .null (.obj []))
      "- CVSS Score: Unknown (Unknown)\n" = true ∧
    strContains (create_analysis_prompt_json (.obj []) .null (.obj []))
      "- EPSS Score: Not available\n- Known Exploited: No\n" = true :=
  ⟨rfl, rfl, by decide, by decide⟩

/-- C9 (counterexample): an enrichment result is *not* always tagged with
an error flag — the Ollama path returns the provider's narrative as a bare
string with no tag even on full success, and the ChatGPT path returns a
successfully parsed JSON object verbatim, without adding an `"error"` key. -/
theorem enrichment_untagged_counterexample :
    perform_ai_analysis ⟨"ollama", "llama3", none, "http://localhost:11434"⟩ (.obj [])
      (fun _ => none)
      ⟨.resp 200 (.obj [("models", .arr [.obj [("name", .str "llama3")]])]),
       .resp 200 (.obj [("response", .str "This CVE allows remote code execution.")]) "",
       .respNoOutputText, .exn "unused"⟩
      (.obj []) .null =
      .str "This CVE allows remote code execution." ∧
    hasErrorTag (.str "This CVE allows remote code execution.") = false ∧
    (analyze_with_chatgpt ⟨"chatgpt", "gpt-4o-mini", some "sk-test", "u"⟩ (.obj [])
      (fun _ => some (.obj [("summary", .str "ok")]))
      (.respText "reply") (.exn "unused") (.obj []) .null).1 =
      .obj [("summary", .str "ok")] ∧
    hasErrorTag (.obj [("summary", .str "ok")]) = false :=
  ⟨rfl, rfl, rfl, rfl⟩

/-- C9 (amended): only the ChatGPT configuration/API-error and
parse-fallback paths tag the result with an explicit error flag; the Ollama
path returns the provider's text verbatim as an untagged plain string, and
a ChatGPT response that parses as JSON is returned verbatim with no tag
added. -/
theorem enrichment_error_tagging_amended (cfg : AIConfig) (sys cve cc tbody : JsonValue)
    (s content : String) (parse : String → Option JsonValue) (j : JsonValue) (c : ChatOutcome)
    (hmodel : ((tbody.getD "models" (.arr [])).elems.map
        (fun mo => mo.getD "name" (.str ""))).any
        (fun mo => jsonEqStr mo cfg.model_name) = true)
    (hs : s ≠ "")
    (hj : parse content = some j)
    (hkey : truthyOptStr cfg.api_key = true) :
    analyze_with_ollama cfg sys (.resp 200 tbody)
      (.resp 200 (.obj [("response", .str s)]) "") cve cc = .str s ∧
    hasErrorTag (JsonValue.str s) = false ∧
    (analyze_with_chatgpt cfg sys parse (.respText content) c cve cc).1 = j ∧
    hasErrorTag (analyze_with_chatgpt cfg sys parse (.exn "boom") (.exn "boom") cve cc).1 =
      true := by
  refine ⟨?_, rfl, ?_, ?_⟩
  · simp only [analyze_with_ollama, hmodel]
    simp [JsonValue.getD, pyTruthy, hs]
  · simp only [analyze_with_chatgpt, hkey, Bool.not_true, Bool.false_eq_true, if_false]
    simp [hj]
  · simp only [analyze_with_chatgpt, hkey, Bool.not_true, Bool.false_eq_true, if_false]
    rfl

theorem enrichment_error_tagging_amended_witness :
    analyze_with_ollama ⟨"ollama", "llama3", some "k", "u"⟩ (.obj [])
      (.resp 200 (.obj [("models", .arr [.obj [("name", .str "llama3")]])]))
      (.resp 200 (.obj [("response", .str "narrative")]) "") (.obj []) .null =
      .str "narrative" ∧
    hasErrorTag (JsonValue.str "narrative") = false ∧
    (analyze_with_chatgpt ⟨"ollama", "llama3", some "k", "u"⟩ (.obj [])
      (fun _ => some (.num 1)) (.respText "1") .respEmptyChoices (.obj []) .null).1 =
      .num 1 ∧
    hasErrorTag (analyze_with_chatgpt ⟨"ollama", "llama3", some "k", "u"⟩ (.obj [])
      (fun _ => some (.num 1)) (.exn "boom") (.exn "boom") (.obj []) .null).1 = true :=
  enrichment_error_tagging_amended ⟨"ollama", "llama3", some "k", "u"⟩ (.obj []) (.obj [])
    .null (.obj [("models", .arr [.obj [("name", .str "llama3")]])]) "narrative" "1"
    (fun _ => some (.num 1)) (.num 1) .respEmptyChoices rfl (by decide) rfl rfl

/-- C10: `GET /api/config` returns the stored API key verbatim and unmasked
— the dumped config's `api_key` field equals the stored optional key for
every configuration state, and a key loaded from the environment at startup
(into any config, the pydantic default included) is echoed back in full
even though the caller never supplied it through the config endpoint. -/
theorem config_returns_api_key_verbatim (cfg : AIConfig) (k : String) (hk : k ≠ "") :
    (get_config cfg).getD "api_key" .null =
      (match cfg.api_key with | some s => .str s | none => .null) ∧
    (get_config (load_env_config (some k) cfg)).getD "api_key" .null = .str k ∧
    (get_config (load_env_config (some k) default_ai_config)).getD "api_key" .null =
      .str k := by
  refine ⟨rfl, ?_, ?_⟩
  · simp only [load_env_config, get_config, JsonValue.getD, bne_iff_ne, ne_eq, hk,
      not_false_eq_true, if_true]
    rfl
  · simp only [load_env_config, get_config, JsonValue.getD, bne_iff_ne, ne_eq, hk,
      not_false_eq_true, if_true, default_ai_config]
    rfl

theorem config_returns_api_key_verbatim_witness :
    (get_config ⟨"chatgpt", "gpt-4o-mini", some "sk-stored-key", "u"⟩).getD "api_key" .null =
      (match (⟨"chatgpt", "gpt-4o-mini", some "sk-stored-key", "u"⟩ : AIConfig).api_key with
       | some s => JsonValue.str s | none => JsonValue.null) ∧
    (get_config (load_env_config (some "sk-env-key")
      ⟨"chatgpt", "gpt-4o-mini", some "sk-stored-key", "u"⟩)).getD "api_key" .null =
      .str "sk-env-key" ∧
    (get_config (load_env_config (some "sk-env-key") default_ai_config)).getD
      "api_key" .null = .str "sk-env-key" :=
  config_returns_api_key_verbatim ⟨"chatgpt", "gpt-4o-mini", some "sk-stored-key", "u"⟩
    "sk-env-key" (by decide)
